import Mathlib

/-!
Verification of the banks ETL pipeline (`banks_project.py`).

The script is a linear batch pipeline: extract an HTML table of the
largest banks into records {Name, MC_USD_Billion}, enrich each record
with GBP/EUR/INR conversions, save to CSV, load into a SQLite table
with replace semantics, and run three fixed queries.

Shallow embedding conventions:
- 64-bit floats are modelled as rationals (ℚ); the pipeline's values are
  small decimals, so exact rational arithmetic is the intended reading.
- pandas `.round(2)` applies numpy round-half-to-even at 2 decimals,
  modelled by `roundHalfEven` / `round2`.
- A pandas DataFrame of bank rows is a `List BankRecord`; column
  assignment `df[col] = ...` appends a derived column to every record
  (`derived` is the ordered list of derived columns, mirroring the fact
  that the real DataFrame is mutated in place, one column at a time).
- Exceptions are `Except String`; external effects (the CSV write, the
  SQLite store, query execution) are injected as `Except` parameters.
- Each stage returns its appended log messages (the `log_progress`
  lines, timestamps elided) alongside its result.
-/

deriving instance DecidableEq for Except

namespace BanksETL

/-- numpy's round-half-to-even on a rational, to an integer. -/
def roundHalfEven (q : ℚ) : ℤ :=
  let f : ℤ := Int.floor q
  let frac : ℚ := q - (f : ℚ)
  if frac < 1/2 then f
  else if 1/2 < frac then f + 1
  else if f % 2 = 0 then f else f + 1

/-- pandas `.round(2)`: round-half-to-even at two decimal places. -/
def round2 (q : ℚ) : ℚ := ((roundHalfEven (100 * q) : ℤ) : ℚ) / 100

/-- A bank row. `Name` and `MC_USD_Billion` come from extraction;
`derived` is the ordered list of derived currency columns later added
in place by `transform` (empty on freshly extracted records). -/
structure BankRecord where
  Name : String
  MC_USD_Billion : ℚ
  derived : List (String × ℚ)
deriving DecidableEq

/-- The parsed exchange-rate file: currency code to rate, as produced by
`pd.read_csv(csv_path).set_index("Currency")["Rate"]`. -/
abbrev ExchangeRateTable := List (String × ℚ)

/-- An `<a>` element; `title` is its optional `title` attribute. -/
structure Anchor where
  title : Option String
deriving DecidableEq

/-- A `<td>` element: its `<a>` descendants (in document order) and its
content nodes rendered as strings. -/
structure Cell where
  anchors : List Anchor
  contents : List String
deriving DecidableEq

/-- A `<tr>` element, as the list of its `<td>` cells. -/
abbrev Row := List Cell

/-- Python string slicing `s[:-1]`: drop the final character. -/
def dropLastChar (s : String) : String := String.mk s.data.dropLast

/-- Split a character list at the first dot: integer part, and the
fractional part when a dot is present. -/
def splitAtDot : List Char → List Char × Option (List Char)
  | [] => ([], none)
  | c :: cs =>
    if c = '.' then ([], some cs)
    else
      let p := splitAtDot cs
      (c :: p.1, p.2)

/-- Numeric value of a digit string. -/
def digitsVal (cs : List Char) : ℕ :=
  cs.foldl (fun n c => 10 * n + (c.toNat - 48)) 0

/-- Python `float(s)` on the plain decimal strings this pipeline meets
(digits with at most one dot); anything else fails, as `float` raises
`ValueError`. Signs and exponents never occur in the scraped data and
are not modelled. -/
def parseFloat (s : String) : Option ℚ :=
  let p := splitAtDot s.data
  match p.2 with
  | none =>
    if ¬ p.1 = [] ∧ p.1.all Char.isDigit then some ((digitsVal p.1 : ℕ) : ℚ)
    else none
  | some fp =>
    if (¬ p.1 = [] ∨ ¬ fp = []) ∧ p.1.all Char.isDigit ∧ fp.all Char.isDigit then
      some (((digitsVal p.1 : ℕ) : ℚ) + ((digitsVal fp : ℕ) : ℚ) / (10 : ℚ) ^ fp.length)
    else none

/-- One loop body of `extract`: from a row's data cells, build
`{"Name": col[1].find_all("a")[1]["title"],
  "MC_USD_Billion": float(col[2].contents[0][:-1])}`.
Each missing cell, anchor, attribute or failed parse is the
corresponding Python exception. -/
def processRow (cells : Row) : Except String BankRecord :=
  match cells.get? 1 with
  | none => Except.error "IndexError: list index out of range"
  | some c1 =>
    match c1.anchors.get? 1 with
    | none => Except.error "IndexError: list index out of range"
    | some a =>
      match a.title with
      | none => Except.error "KeyError: title"
      | some nm =>
        match cells.get? 2 with
        | none => Except.error "IndexError: list index out of range"
        | some c2 =>
          match c2.contents.get? 0 with
          | none => Except.error "IndexError: list index out of range"
          | some s =>
            match parseFloat (dropLastChar s) with
            | none => Except.error "ValueError: could not convert string to float"
            | some v => Except.ok { Name := nm, MC_USD_Billion := v, derived := [] }

/-- The row loop of `extract`: rows with zero data cells are skipped
(`if len(col) != 0`); the first failing row aborts the whole extraction. -/
def extractRows : List Row → Except String (List BankRecord)
  | [] => Except.ok []
  | r :: rs =>
    if r.isEmpty then extractRows rs
    else
      match processRow r, extractRows rs with
      | Except.ok b, Except.ok bs => Except.ok (b :: bs)
      | Except.error e, _ => Except.error e
      | Except.ok _, Except.error e => Except.error e

/-- `extract(url, table_attribs)`: takes the parsed `<tbody>` elements of
the fetched page (each a list of rows), works on the first one
(`tables[0]`), and returns the appended log messages together with the
result. There is no handler in `extract`: a failure produces no error
log entry. -/
def extract (tbodies : List (List Row)) : List String × Except String (List BankRecord) :=
  match tbodies.get? 0 with
  | none => (["Starting data extraction"], Except.error "IndexError: list index out of range")
  | some rows =>
    match extractRows rows with
    | Except.error e => (["Starting data extraction"], Except.error e)
    | Except.ok recs => (["Starting data extraction", "Data extraction complete"], Except.ok recs)

/-- `df[f"MC_{currency}_Billion"] = (df["MC_USD_Billion"] * rate).round(2)`:
appends the derived column to every record, in place. -/
def addColumn (currency : String) (rate : ℚ) (df : List BankRecord) : List BankRecord :=
  df.map fun r =>
    { r with derived := r.derived ++ [("MC_" ++ currency ++ "_Billion", round2 (r.MC_USD_Billion * rate))] }

/-- The fixed currency list of `transform`. -/
def currencies : List String := ["GBP", "EUR", "INR"]

/-- The conversion loop of `transform`. Returns the state of `df` when
the loop stops (the columns added so far persist, since assignment
mutates the frame) together with the result: `.ok` of the frame, or the
`KeyError` of the first currency missing from the rate table. -/
def transformLoop : List String → List BankRecord → ExchangeRateTable → List BankRecord × Except String (List BankRecord)
  | [], df, _ => (df, Except.ok df)
  | c :: cs, df, rates =>
    match List.lookup c rates with
    | none => (df, Except.error ("KeyError: " ++ c))
    | some rate => transformLoop cs (addColumn c rate df) rates

/-- `transform(df, csv_path)`. The exchange-rate file read is injected
as `ratesRes` (its parse result, or the read failure). Returns the
post-call state of the input frame (mutated in place), the log
messages, and the returned value or re-raised error: the body is a
`try` whose handler logs the error and re-raises. -/
def transform (df : List BankRecord) (ratesRes : Except String ExchangeRateTable) :
    List BankRecord × List String × Except String (List BankRecord) :=
  match ratesRes with
  | Except.error e =>
    (df, ["Starting data transformation", "Error during transformation: " ++ e], Except.error e)
  | Except.ok rates =>
    match transformLoop currencies df rates with
    | (df2, Except.ok out) =>
      (df2, ["Starting data transformation", "Data transformation complete"], Except.ok out)
    | (df2, Except.error e) =>
      (df2, ["Starting data transformation", "Error during transformation: " ++ e], Except.error e)

/-- `log_progress(message)`: opens the log file for append and writes
`timestamp + " : " + message + "\n"`. The body has no handler, so the
function returns exactly what the injected append capability returns —
in particular a write failure propagates to the caller. -/
def log_progress (message : String) (timestamp : String)
    (sink : String → Except String Unit) : Except String Unit :=
  sink (timestamp ++ " : " ++ message ++ "\n")

/-- `load_to_csv(df, output_path)`: a `try` around `df.to_csv`, whose
handler logs the error and re-raises. The file write is injected as
`writeRes`. -/
def load_to_csv (df : List BankRecord) (output_path : String)
    (writeRes : Except String Unit) : List String × Except String Unit :=
  match writeRes with
  | Except.ok _ =>
    (["Saving data to CSV file", "Data saved to CSV file: " ++ output_path], Except.ok ())
  | Except.error e =>
    (["Saving data to CSV file", "Error while saving to CSV: " ++ e], Except.error e)

/-- The relational store: table name to stored rows. -/
def DB := String → Option (List BankRecord)

/-- The store with no tables. -/
def emptyDB : DB := fun _ => none

/-- `df.to_sql(..., if_exists='replace', ...)`: create or replace the
named table so that it holds exactly the given rows; other tables are
untouched. -/
def setTable (db : DB) (table_name : String) (rows : List BankRecord) : DB :=
  fun n => if n = table_name then some rows else db n

/-- `load_to_db(df, sql_connection, table_name)`: a `try` that replaces
the table, logs success, runs the COUNT(*) verification query against
the just-written table and logs the count; the handler logs the error
and re-raises. The store round-trip is injected as `storeRes`; on
failure the store is left as it was. Returns the post-call store, the
log messages, and the result. -/
def load_to_db (df : List BankRecord) (db : DB) (table_name : String)
    (storeRes : Except String Unit) : DB × List String × Except String Unit :=
  match storeRes with
  | Except.error e =>
    (db,
     ["Starting to load data to " ++ table_name ++ " table",
      "Error loading data to database: " ++ e],
     Except.error e)
  | Except.ok _ =>
    let db2 := setTable db table_name df
    (db2,
     ["Starting to load data to " ++ table_name ++ " table",
      "Data successfully loaded to " ++ table_name ++ " table",
      "Verified " ++ toString df.length ++ " rows loaded to " ++ table_name],
     Except.ok ())

/-- `run_queries(query, sql_connection)`: a `try` around
`pd.read_sql`, whose handler logs the failure, prints
`"Error executing query: ..."` and re-raises. Query execution is
injected as `queryRes`. Returns the log messages, the printed error
messages, and the result. -/
def run_queries (query : String) (queryRes : Except String Unit) :
    List String × List String × Except String Unit :=
  match queryRes with
  | Except.ok _ =>
    (["Executing query: " ++ query, "Query executed successfully"], [], Except.ok ())
  | Except.error e =>
    (["Executing query: " ++ query, "Query failed: " ++ e],
     ["Error executing query: " ++ e],
     Except.error e)

/-- A derived column of a stored row, by name (NULL when absent). -/
def getCol (r : BankRecord) (c : String) : Option ℚ :=
  List.lookup c r.derived

/-- The fixed aggregate query
`SELECT AVG(MC_GBP_Billion) FROM Largest_banks`, modelled on the stored
rows: the mean of the named derived column (every row the pipeline
stores carries it; an absent value reads as 0). NULL on an empty table. -/
def avgCol (rows : List BankRecord) (c : String) : Option ℚ :=
  if rows.isEmpty then none
  else some ((rows.map fun r => (getCol r c).getD 0).sum / (rows.length : ℚ))

/-- The fixed query `SELECT Name FROM Largest_banks LIMIT n`, modelled
on the stored rows: the first `n` names in storage order. -/
def namesLimit (rows : List BankRecord) (n : ℕ) : List String :=
  (rows.take n).map BankRecord.Name

/-- The end-to-end scenario's extracted records:
MC_USD_Billion = [100, 50, 10]. -/
def sample_df : List BankRecord :=
  [{ Name := "A", MC_USD_Billion := 100, derived := [] },
   { Name := "B", MC_USD_Billion := 50, derived := [] },
   { Name := "C", MC_USD_Billion := 10, derived := [] }]

/-- The scenario's rate table: GBP 0.8, EUR 0.93, INR 82.5. -/
def sample_rates : ExchangeRateTable :=
  [("GBP", 4/5), ("EUR", 93/100), ("INR", 165/2)]

/-- A rate table missing EUR and INR. -/
def gbp_only_rates : ExchangeRateTable := [("GBP", 4/5)]

/-- The scenario's enriched frame: the post-call state of the input
(i.e. the mutated frame, which `transform` also returns). -/
def sample_out : List BankRecord :=
  (transform sample_df (Except.ok sample_rates)).1

/-- A well-formed data row: second cell holds two anchors whose second
has a title, third cell's first content is a decimal followed by a
newline. -/
def sampleRow : Row :=
  [{ anchors := [], contents := ["1"] },
   { anchors := [{ title := some "US" }, { title := some "JPMorgan Chase" }], contents := [] },
   { anchors := [], contents := ["432.92\n"] }]

/-- A second well-formed data row. -/
def sampleRow2 : Row :=
  [{ anchors := [], contents := ["2"] },
   { anchors := [{ title := some "US" }, { title := some "Bank of America" }], contents := [] },
   { anchors := [], contents := ["231.52\n"] }]

/-- A header row: no `<td>` data cells. -/
def headerRow : Row := []

/-- A malformed page: the first tbody has one row with a single data
cell, so `col[1]` raises IndexError inside `extract`. -/
def badTbodies : List (List Row) := [[[{ anchors := [], contents := ["1"] }]]]

/-!
Theorems. The Batteries rational operations are `@[irreducible]`; they
are unsealed so that concrete pipeline runs evaluate inside `decide`.
-/

unseal Rat.mul Rat.add Rat.inv Rat.sub

/-- C1: for every record set and every rate table with positive GBP, EUR
and INR rates, `transform` succeeds and gives every record the three
derived columns, each equal to `round(MC_USD_Billion * rate, 2)`
exactly (round-half-to-even, as pandas `.round(2)`). -/
theorem c1_transform_rounds_each_currency
    (df : List BankRecord) (rates : ExchangeRateTable) (g e i : ℚ)
    (hg : List.lookup "GBP" rates = some g) (hgpos : 0 < g)
    (he : List.lookup "EUR" rates = some e) (hepos : 0 < e)
    (hi : List.lookup "INR" rates = some i) (hipos : 0 < i)
    (hplain : ∀ r ∈ df, r.derived = []) :
    ∃ out, (transform df (Except.ok rates)).2.2 = Except.ok out ∧
      ∀ (k : ℕ) (r : BankRecord), df[k]? = some r →
        ∃ b, out[k]? = some b ∧ b.Name = r.Name ∧
          b.MC_USD_Billion = r.MC_USD_Billion ∧
          getCol b "MC_GBP_Billion" = some (round2 (r.MC_USD_Billion * g)) ∧
          getCol b "MC_EUR_Billion" = some (round2 (r.MC_USD_Billion * e)) ∧
          getCol b "MC_INR_Billion" = some (round2 (r.MC_USD_Billion * i)) := by
  refine ⟨addColumn "INR" i (addColumn "EUR" e (addColumn "GBP" g df)), ?_, ?_⟩
  · simp [transform, transformLoop, currencies, hg, he, hi]
  · intro k r hk
    have hder : r.derived = [] := hplain r (List.getElem?_mem hk)
    refine ⟨⟨r.Name, r.MC_USD_Billion,
      [("MC_GBP_Billion", round2 (r.MC_USD_Billion * g)),
       ("MC_EUR_Billion", round2 (r.MC_USD_Billion * e)),
       ("MC_INR_Billion", round2 (r.MC_USD_Billion * i))]⟩, ?_, rfl, rfl, ?_, ?_, ?_⟩
    · simp [addColumn, List.getElem?_map, hk, hder]
    · simp [getCol, List.lookup]
    · simp [getCol, List.lookup]
    · simp [getCol, List.lookup]

/-- C1 witness: the scenario rate table is positive and complete, and
the theorem applies to the scenario frame. -/
theorem c1_witness :
    List.lookup "GBP" sample_rates = some (4/5) ∧ (0:ℚ) < 4/5 ∧
    List.lookup "EUR" sample_rates = some (93/100) ∧ (0:ℚ) < 93/100 ∧
    List.lookup "INR" sample_rates = some (165/2) ∧ (0:ℚ) < 165/2 ∧
    (∀ r ∈ sample_df, r.derived = []) ∧
    (∃ out, (transform sample_df (Except.ok sample_rates)).2.2 = Except.ok out ∧
      ∀ (k : ℕ) (r : BankRecord), sample_df[k]? = some r →
        ∃ b, out[k]? = some b ∧ b.Name = r.Name ∧
          b.MC_USD_Billion = r.MC_USD_Billion ∧
          getCol b "MC_GBP_Billion" = some (round2 (r.MC_USD_Billion * (4/5))) ∧
          getCol b "MC_EUR_Billion" = some (round2 (r.MC_USD_Billion * (93/100))) ∧
          getCol b "MC_INR_Billion" = some (round2 (r.MC_USD_Billion * (165/2)))) :=
  ⟨by decide, by decide, by decide, by decide, by decide, by decide, by decide,
   c1_transform_rounds_each_currency sample_df sample_rates (4/5) (93/100) (165/2)
     (by decide) (by decide) (by decide) (by decide) (by decide) (by decide) (by decide)⟩

/-- C2 counterexample: with rates = {GBP: 0.8} and EUR absent, the
call does raise the lookup error, but the input record has been
enriched with the GBP column before the failure — enrichment is not
all-or-nothing. -/
theorem c2_counterexample :
    (transform [⟨"A", 100, []⟩] (Except.ok gbp_only_rates)).2.2 =
      Except.error "KeyError: EUR" ∧
    (transform [⟨"A", 100, []⟩] (Except.ok gbp_only_rates)).1 =
      [⟨"A", 100, [("MC_GBP_Billion", 80)]⟩] := by decide

/-- C2 amended: with GBP present and EUR missing, `transform` raises
the `KeyError` (a `LookupError`) for EUR, logs it and re-raises — but
the GBP column, converted before the failure, remains on every input
record: the frame is left partially enriched, not untouched. -/
theorem c2_missing_currency_partial_enrichment
    (df : List BankRecord) (rates : ExchangeRateTable) (g : ℚ)
    (hg : List.lookup "GBP" rates = some g)
    (he : List.lookup "EUR" rates = none) :
    transform df (Except.ok rates) =
      (addColumn "GBP" g df,
       ["Starting data transformation", "Error during transformation: KeyError: EUR"],
       Except.error "KeyError: EUR") := by
  simp [transform, transformLoop, currencies, hg, he]

/-- C2 witness: the amended theorem applies to a concrete frame and the
GBP-only rate table. -/
theorem c2_witness :
    List.lookup "GBP" gbp_only_rates = some (4/5) ∧
    List.lookup "EUR" gbp_only_rates = none ∧
    transform [⟨"B", 50, []⟩] (Except.ok gbp_only_rates) =
      (addColumn "GBP" (4/5) [⟨"B", 50, []⟩],
       ["Starting data transformation", "Error during transformation: KeyError: EUR"],
       Except.error "KeyError: EUR") :=
  ⟨by decide, by decide,
   c2_missing_currency_partial_enrichment [⟨"B", 50, []⟩] gbp_only_rates (4/5)
     (by decide) (by decide)⟩

/-- C5 counterexample: after a successful `transform` with the complete
scenario rates, the input frame is no longer its original value — the
records passed in now carry the derived columns. -/
theorem c5_counterexample :
    ¬ ((transform [⟨"A", 100, []⟩] (Except.ok sample_rates)).1 = [⟨"A", 100, []⟩]) ∧
    (transform [⟨"A", 100, []⟩] (Except.ok sample_rates)).1 =
      [⟨"A", 100, [("MC_GBP_Billion", 80), ("MC_EUR_Billion", 93), ("MC_INR_Billion", 8250)]⟩] := by
  decide

/-- C5 amended: `transform` mutates its input in place: after a
successful call the input frame's records carry the three derived
columns appended to whatever they held, and the returned record set is
exactly that mutated input, not an independent copy. -/
theorem c5_transform_mutates_input
    (df : List BankRecord) (rates : ExchangeRateTable) (g e i : ℚ)
    (hg : List.lookup "GBP" rates = some g)
    (he : List.lookup "EUR" rates = some e)
    (hi : List.lookup "INR" rates = some i) :
    (transform df (Except.ok rates)).2.2 =
      Except.ok ((transform df (Except.ok rates)).1) ∧
    ∀ (k : ℕ) (r : BankRecord), df[k]? = some r →
      (transform df (Except.ok rates)).1[k]? =
        some ⟨r.Name, r.MC_USD_Billion,
          r.derived ++
            [("MC_GBP_Billion", round2 (r.MC_USD_Billion * g)),
             ("MC_EUR_Billion", round2 (r.MC_USD_Billion * e)),
             ("MC_INR_Billion", round2 (r.MC_USD_Billion * i))]⟩ := by
  constructor
  · simp [transform, transformLoop, currencies, hg, he, hi]
  · intro k r hk
    simp [transform, transformLoop, currencies, hg, he, hi, addColumn, List.getElem?_map, hk]

/-- C5 witness: the amended theorem applies to a concrete frame and the
scenario rates. -/
theorem c5_witness :
    List.lookup "GBP" sample_rates = some (4/5) ∧
    List.lookup "EUR" sample_rates = some (93/100) ∧
    List.lookup "INR" sample_rates = some (165/2) ∧
    ((transform [⟨"C", 10, []⟩] (Except.ok sample_rates)).2.2 =
      Except.ok ((transform [⟨"C", 10, []⟩] (Except.ok sample_rates)).1) ∧
    ∀ (k : ℕ) (r : BankRecord), [(⟨"C", 10, []⟩ : BankRecord)][k]? = some r →
      (transform [⟨"C", 10, []⟩] (Except.ok sample_rates)).1[k]? =
        some ⟨r.Name, r.MC_USD_Billion,
          r.derived ++
            [("MC_GBP_Billion", round2 (r.MC_USD_Billion * (4/5))),
             ("MC_EUR_Billion", round2 (r.MC_USD_Billion * (93/100))),
             ("MC_INR_Billion", round2 (r.MC_USD_Billion * (165/2)))]⟩) :=
  ⟨by decide, by decide, by decide,
   c5_transform_mutates_input [⟨"C", 10, []⟩] sample_rates (4/5) (93/100) (165/2)
     (by decide) (by decide) (by decide)⟩

/-- Helper for C4: a successful row loop produces exactly one record
per row with data cells, in row order, each built by `processRow`. -/
theorem extractRows_ok_forall2 (rows : List Row) (recs : List BankRecord)
    (h : extractRows rows = Except.ok recs) :
    List.Forall₂ (fun r b => processRow r = Except.ok b)
      (rows.filter fun r => !r.isEmpty) recs := by
  induction rows generalizing recs with
  | nil =>
    simp [extractRows] at h
    simp [← h]
  | cons r rs ih =>
    cases hre : r.isEmpty with
    | true =>
      rw [extractRows, if_pos hre] at h
      simpa [List.filter_cons, hre] using ih recs h
    | false =>
      rw [extractRows, if_neg (by simp [hre])] at h
      cases hp : processRow r with
      | error e => rw [hp] at h; cases hx : extractRows rs <;> rw [hx] at h <;> simp at h
      | ok b =>
        cases hx : extractRows rs with
        | error e => rw [hp, hx] at h; simp at h
        | ok bs =>
          rw [hp, hx] at h
          simp at h
          subst h
          have hfc : (r :: rs).filter (fun r => !r.isEmpty) =
              r :: rs.filter (fun r => !r.isEmpty) := by
            simp [List.filter_cons, hre]
          rw [hfc]
          exact List.Forall₂.cons hp (ih bs hx)

/-- C3: for a well-formed data row — second cell present with a titled
second anchor, third cell's first content parsing as a decimal once its
trailing character is dropped — `extract` produces the record whose
Name is that title and whose MC_USD_Billion is that parsed value. -/
theorem c3_extract_row_fields
    (cells : Row) (c1 : Cell) (a : Anchor) (c2 : Cell) (nm s : String) (v : ℚ)
    (h1 : cells[1]? = some c1)
    (h2 : c1.anchors[1]? = some a)
    (h3 : a.title = some nm)
    (h4 : cells[2]? = some c2)
    (h5 : c2.contents[0]? = some s)
    (h6 : parseFloat (dropLastChar s) = some v) :
    extract [[cells]] =
      (["Starting data extraction", "Data extraction complete"],
       Except.ok [⟨nm, v, []⟩]) := by
  have hne : cells.isEmpty = false := by
    cases cells with
    | nil => simp at h1
    | cons x xs => rfl
  simp [extract, extractRows, processRow, hne, h1, h2, h3, h4, h5, h6]

/-- C3 witness: the sample data row parses to the titled name and the
number `432.92`. -/
theorem c3_witness :
    parseFloat (dropLastChar "432.92\n") = some (10823/25) ∧
    extract [[sampleRow]] =
      (["Starting data extraction", "Data extraction complete"],
       Except.ok [⟨"JPMorgan Chase", 10823/25, []⟩]) :=
  ⟨by decide,
   c3_extract_row_fields sampleRow
     ⟨[⟨some "US"⟩, ⟨some "JPMorgan Chase"⟩], []⟩ ⟨some "JPMorgan Chase"⟩
     ⟨[], ["432.92\n"]⟩ "JPMorgan Chase" "432.92\n" (10823/25)
     (by decide) (by decide) (by decide) (by decide) (by decide) (by decide)⟩

/-- C4: a successful `extract` yields exactly one record per row of the
first tbody that has a nonzero number of data cells, in source row
order (the k-th produced record comes from the k-th qualifying row). -/
theorem c4_one_record_per_data_row
    (rows : List Row) (rest : List (List Row)) (recs : List BankRecord)
    (h : (extract (rows :: rest)).2 = Except.ok recs) :
    recs.length = (rows.filter fun r => !r.isEmpty).length ∧
    List.Forall₂ (fun r b => processRow r = Except.ok b)
      (rows.filter fun r => !r.isEmpty) recs := by
  have hx : extractRows rows = Except.ok recs := by
    cases hy : extractRows rows with
    | error e => simp [extract, hy] at h
    | ok recs2 => simp [extract, hy] at h; rw [h]
  have hf := extractRows_ok_forall2 rows recs hx
  exact ⟨(List.Forall₂.length_eq hf).symm, hf⟩

/-- C4 witness: on the sample page (a header row and two data rows) the
theorem instantiates: two records, one per data row, in order. -/
theorem c4_witness :
    (extract ([headerRow, sampleRow, sampleRow2] :: [])).2 = Except.ok
      [⟨"JPMorgan Chase", 10823/25, []⟩, ⟨"Bank of America", 5788/25, []⟩] ∧
    ([(⟨"JPMorgan Chase", 10823/25, []⟩ : BankRecord), ⟨"Bank of America", 5788/25, []⟩]).length =
      ([headerRow, sampleRow, sampleRow2].filter fun r => !r.isEmpty).length ∧
    List.Forall₂ (fun r b => processRow r = Except.ok b)
      ([headerRow, sampleRow, sampleRow2].filter fun r => !r.isEmpty)
      [⟨"JPMorgan Chase", 10823/25, []⟩, ⟨"Bank of America", 5788/25, []⟩] :=
  ⟨by decide,
   (c4_one_record_per_data_row [headerRow, sampleRow, sampleRow2] []
     [⟨"JPMorgan Chase", 10823/25, []⟩, ⟨"Bank of America", 5788/25, []⟩] (by decide)).1,
   (c4_one_record_per_data_row [headerRow, sampleRow, sampleRow2] []
     [⟨"JPMorgan Chase", 10823/25, []⟩, ⟨"Bank of America", 5788/25, []⟩] (by decide)).2⟩

/-- C6 counterexample: on a page whose only data row is too short,
`extract` fails — re-raising the index error — but writes no error log
entry: its log trace is exactly the start message, so the stage does
not log the error, contradicting the claim for the extract stage. -/
theorem c6_counterexample :
    (extract badTbodies).2 = Except.error "IndexError: list index out of range" ∧
    (extract badTbodies).1 = ["Starting data extraction"] := by decide

/-- C6 amended: `transform`, `load_to_csv`, `load_to_db` and
`run_queries` each log the error message and re-raise it to the caller;
`extract` has no handler — it re-raises, but its log trace never goes
beyond the start message, so extraction errors are not logged. -/
theorem c6_stage_error_logging
    (e : String) (df : List BankRecord) (path : String) (db : DB)
    (name q : String) (tb : List (List Row)) :
    (transform df (Except.error e)).2.1 =
      ["Starting data transformation", "Error during transformation: " ++ e] ∧
    (transform df (Except.error e)).2.2 = Except.error e ∧
    load_to_csv df path (Except.error e) =
      (["Saving data to CSV file", "Error while saving to CSV: " ++ e], Except.error e) ∧
    load_to_db df db name (Except.error e) =
      (db, ["Starting to load data to " ++ name ++ " table",
            "Error loading data to database: " ++ e], Except.error e) ∧
    run_queries q (Except.error e) =
      (["Executing query: " ++ q, "Query failed: " ++ e],
       ["Error executing query: " ++ e], Except.error e) ∧
    ((extract tb).2.isOk = false → (extract tb).1 = ["Starting data extraction"]) := by
  refine ⟨rfl, rfl, rfl, rfl, rfl, ?_⟩
  intro hfail
  cases h0 : tb[0]? with
  | none => simp [extract, h0]
  | some rows =>
    cases hx : extractRows rows with
    | error e2 => simp [extract, h0, hx]
    | ok recs => simp [extract, h0, hx, Except.isOk, Except.toBool] at hfail

/-- C6 witness: the amended theorem at a concrete failure of each
handled stage, and the unlogged extraction failure on the malformed
page. -/
theorem c6_witness :
    (transform sample_df (Except.error "FileNotFoundError")).2.1 =
      ["Starting data transformation", "Error during transformation: " ++ "FileNotFoundError"] ∧
    run_queries "SELECT * FROM Largest_banks" (Except.error "DatabaseError") =
      (["Executing query: " ++ "SELECT * FROM Largest_banks", "Query failed: " ++ "DatabaseError"],
       ["Error executing query: " ++ "DatabaseError"], Except.error "DatabaseError") ∧
    (extract badTbodies).1 = ["Starting data extraction"] :=
  ⟨(c6_stage_error_logging "FileNotFoundError" sample_df "Largest_banks_data.csv" emptyDB
      "Largest_banks" "SELECT * FROM Largest_banks" badTbodies).1,
   (c6_stage_error_logging "DatabaseError" sample_df "Largest_banks_data.csv" emptyDB
      "Largest_banks" "SELECT * FROM Largest_banks" badTbodies).2.2.2.2.1,
   (c6_stage_error_logging "FileNotFoundError" sample_df "Largest_banks_data.csv" emptyDB
      "Largest_banks" "SELECT * FROM Largest_banks" badTbodies).2.2.2.2.2 (by decide)⟩

/-- C7: loading the same record set twice into the same table name is
idempotent: the store after the second load equals the store after the
first (replace semantics, not append), the table holds exactly the
loaded records, and the second run logs the same messages — including
the same verified row count — as the first. -/
theorem c7_load_to_db_idempotent (df : List BankRecord) (db : DB) (table_name : String) :
    (load_to_db df (load_to_db df db table_name (Except.ok ())).1 table_name (Except.ok ())).1 =
      (load_to_db df db table_name (Except.ok ())).1 ∧
    (load_to_db df (load_to_db df db table_name (Except.ok ())).1 table_name (Except.ok ())).1
        table_name = some df ∧
    (load_to_db df (load_to_db df db table_name (Except.ok ())).1 table_name (Except.ok ())).2.1 =
      (load_to_db df db table_name (Except.ok ())).2.1 := by
  refine ⟨?_, ?_, rfl⟩
  · show setTable (setTable db table_name df) table_name df = setTable db table_name df
    funext m
    by_cases hm : m = table_name <;> simp [setTable, hm]
  · simp [load_to_db, setTable]

/-- C8 counterexample: with a failing append sink, `log_progress`
raises — the caller observes the write error, not normal completion. -/
theorem c8_counterexample :
    log_progress "ETL Job Started" "2025-Sep-08-09:16:35"
        (fun _ => Except.error "PermissionError") =
      Except.error "PermissionError" ∧
    ¬ (log_progress "ETL Job Started" "2025-Sep-08-09:16:35"
        (fun _ => Except.error "PermissionError") = Except.ok ()) :=
  ⟨rfl, by decide⟩

/-- C8 amended: `log_progress` has no handler — it performs exactly one
append of the timestamped line and returns whatever the sink returns,
so a write failure propagates to the caller rather than being
swallowed. -/
theorem c8_log_write_failure_propagates
    (message timestamp : String) (sink : String → Except String Unit) :
    log_progress message timestamp sink =
      sink (timestamp ++ " : " ++ message ++ "\n") := rfl

/-- C10 counterexample: on the scenario input — three records with
MC_USD_Billion 100, 50, 10 and rates GBP 0.8, EUR 0.93, INR 82.5 — the
mean of MC_GBP_Billion over the stored rows is 128/3 (about 42.67),
not the claimed 56.0. -/
theorem c10_counterexample :
    (transform sample_df (Except.ok sample_rates)).2.2 = Except.ok sample_out ∧
    avgCol sample_out "MC_GBP_Billion" = some (128/3) ∧
    ¬ ((128 : ℚ)/3 = 56) := by decide

/-- C10 amended: on the scenario input, the enriched first record is
(A, 100, 80, 93, 8250), the table load stores the three enriched rows,
the mean-of-MC_GBP_Billion query returns 128/3 (not 56.0), and the
Name-of-first-5-rows query returns exactly the three names in
extraction order. -/
theorem c10_end_to_end_scenario :
    (transform sample_df (Except.ok sample_rates)).2.2 = Except.ok sample_out ∧
    sample_out[0]? = some ⟨"A", 100,
      [("MC_GBP_Billion", 80), ("MC_EUR_Billion", 93), ("MC_INR_Billion", 8250)]⟩ ∧
    (load_to_db sample_out emptyDB "Largest_banks" (Except.ok ())).1 "Largest_banks" =
      some sample_out ∧
    avgCol sample_out "MC_GBP_Billion" = some (128/3) ∧
    namesLimit sample_out 5 = ["A", "B", "C"] := by decide

end BanksETL
